import Mathlib

/-!
# Verification of the Metronome timing core

Shallow embedding of the metronome repository's timing core
(`config.py`, `song_section.py`, `metronome.py`) and proofs about it.

Conventions of the embedding:
* Python `int` becomes `Int`; Python `float` time/tempo arithmetic becomes `ℚ`
  (exact rational arithmetic standing for the real-number intent of the code).
* Python `%` and `//` on integers are floor-division operators; they are
  embedded as `Int.fmod` and `Int.fdiv`, which share Python's semantics for a
  nonzero divisor.  A division or modulo by zero raises `ZeroDivisionError`
  in Python; fallible code is embedded in `Except PyError`.
* `tkinter` variables (`IntVar`, `BooleanVar`, `StringVar`) are plain fields of
  the state record; `get`/`set` become field reads and functional updates.
* Thread creation is modelled by a `threads` counter on the state (number of
  playback threads spawned by `threading.Thread(...).start()`); the timing
  loop body becomes a step function that receives the current wall-clock
  reading `now` (the value `time.time()` would return) as an argument.
-/

namespace Metro

/-! ## config.py -/

def DEFAULT_BPM : Int := 120

def DEFAULT_BEATS_PER_BAR : Int := 4

def DEFAULT_SUBDIVISIONS : Int := 1

def DEFAULT_TIMER_DURATION : ℚ := 0

def DEFAULT_TEMPO_CHANGE_STEP : Int := 5

def DEFAULT_TEMPO_CHANGE_INTERVAL : Int := 4

def DEFAULT_COUNT_IN_BARS : Int := 2

def MIN_BPM : Int := 20

def MAX_BPM : Int := 250

/-! ## Python value model -/

/-- A Python value held by a loosely typed configuration attribute: either an
integer already, or a string (as typed into a UI entry). -/
inductive PyVal where
  | int (n : Int)
  | str (s : String)
deriving Repr, DecidableEq

/-- Accumulating digit parse: succeeds only when every character is a
decimal digit. -/
def digitsToNat? (acc : Nat) : List Char → Option Nat
  | [] => some acc
  | c :: cs =>
    if c.isDigit then digitsToNat? (acc * 10 + (c.toNat - 48)) cs else none

/-- Python's `int(str)` (simplified model, adequate for the configuration
strings that occur here): an optional sign followed by one or more decimal
digits; anything else raises `ValueError`, modelled as `none`. -/
def pyParseInt (s : String) : Option Int :=
  match s.data with
  | [] => none
  | '-' :: cs =>
    match cs with
    | [] => none
    | _ => (digitsToNat? 0 cs).map (fun n => -(n : Int))
  | '+' :: cs =>
    match cs with
    | [] => none
    | _ => (digitsToNat? 0 cs).map (fun n => (n : Int))
  | cs => (digitsToNat? 0 cs).map (fun n => (n : Int))

/-- Python's `int(x)` on a loosely typed value: an integer passes through, a
string is parsed; `none` models `ValueError`. -/
def pyInt : PyVal → Option Int
  | PyVal.int n => some n
  | PyVal.str s => pyParseInt s

/-- Exceptions the embedded code can raise. -/
inductive PyError where
  | valueError
  | zeroDivisionError
deriving Repr, DecidableEq

/-- Python's `%` on integers (floor modulo, sign of the divisor);
for divisor `0` Python raises, callers test for that separately. -/
def pymod (a b : Int) : Int := Int.fmod a b

/-- Python's `//` on integers (floor division). -/
def pyfloordiv (a b : Int) : Int := Int.fdiv a b

theorem pymod_eq_emod (a b : Int) (hb : 0 ≤ b) : pymod a b = a % b :=
  Int.fmod_eq_emod a hb

theorem pyfloordiv_eq_ediv (a b : Int) (hb : 0 ≤ b) : pyfloordiv a b = a / b :=
  Int.fdiv_eq_ediv a hb

/-! ## song_section.py -/

/-- `SongSection` dataclass: a section of a song with specific timing and
settings. -/
structure SongSection where
  name : String
  bars : Int
  bpm : Int
  beats_per_bar : Int
  subdivisions : Int
  swing_enabled : Bool := false
deriving Repr, DecidableEq

instance : Inhabited SongSection := ⟨⟨"", 1, 1, 1, 1, false⟩⟩

/-- Constructing a `SongSection`, including the `__post_init__` validation:
each numeric field must be positive, otherwise a `ValueError` with the given
message is raised. -/
def SongSection.mk? (name : String) (bars bpm beats_per_bar subdivisions : Int)
    (swing_enabled : Bool) : Except String SongSection :=
  if bars ≤ 0 then Except.error "Number of bars must be positive"
  else if bpm ≤ 0 then Except.error "BPM must be positive"
  else if beats_per_bar ≤ 0 then Except.error "Beats per bar must be positive"
  else if subdivisions ≤ 0 then Except.error "Subdivisions must be positive"
  else Except.ok ⟨name, bars, bpm, beats_per_bar, subdivisions, swing_enabled⟩

/-- `SongSection.get_total_ticks`. -/
def SongSection.get_total_ticks (s : SongSection) : Int :=
  s.bars * s.beats_per_bar * s.subdivisions

/-- The dictionary produced by `SongSection.to_dict`: one entry per field. -/
structure SectionDict where
  name : String
  bars : Int
  bpm : Int
  beats_per_bar : Int
  subdivisions : Int
  swing_enabled : Bool
deriving Repr, DecidableEq

/-- `SongSection.to_dict`. -/
def SongSection.to_dict (s : SongSection) : SectionDict :=
  ⟨s.name, s.bars, s.bpm, s.beats_per_bar, s.subdivisions, s.swing_enabled⟩

/-- `SongSection.from_dict`: reads every field back and calls the validating
constructor (`cls(...)` runs `__post_init__`). -/
def SongSection.from_dict (d : SectionDict) : Except String SongSection :=
  SongSection.mk? d.name d.bars d.bpm d.beats_per_bar d.subdivisions
    d.swing_enabled

/-! ## Theorems for Section construction and serialization -/

/-- C8: Constructing a Section fails (raises a validation error) if and only
if any of bars, bpm, beats_per_bar, or subdivisions is not a positive
integer; when construction succeeds, all four numeric fields are > 0. -/
theorem section_construction_validates (name : String)
    (bars bpm bpb sub : Int) (sw : Bool) :
    ((∃ e, SongSection.mk? name bars bpm bpb sub sw = Except.error e) ↔
      ¬(0 < bars ∧ 0 < bpm ∧ 0 < bpb ∧ 0 < sub)) ∧
    (∀ s, SongSection.mk? name bars bpm bpb sub sw = Except.ok s →
      0 < s.bars ∧ 0 < s.bpm ∧ 0 < s.beats_per_bar ∧ 0 < s.subdivisions) := by
  unfold SongSection.mk?
  constructor
  · constructor
    · rintro ⟨e, he⟩
      split_ifs at he <;> omega
    · intro h
      split_ifs with h1 h2 h3 h4
      · exact ⟨_, rfl⟩
      · exact ⟨_, rfl⟩
      · exact ⟨_, rfl⟩
      · exact ⟨_, rfl⟩
      · omega
  · intro s hs
    split_ifs at hs with h1 h2 h3 h4
    · cases hs
      exact ⟨show (0:Int) < bars by omega, show (0:Int) < bpm by omega,
        show (0:Int) < bpb by omega, show (0:Int) < sub by omega⟩

/-- C8 witness: a concrete rejected construction (bars = 0). -/
theorem section_construction_validates_witness :
    ∃ e, SongSection.mk? "verse" 0 120 4 1 false = Except.error e :=
  (section_construction_validates "verse" 0 120 4 1 false).1.mpr (by decide)

/-- C9: For every validly constructed SongSection `s`,
`from_dict (to_dict s)` succeeds and returns a section equal to `s` in every
field: serialization to a dictionary and back is a round-trip identity. -/
theorem section_dict_roundtrip (name : String) (bars bpm bpb sub : Int)
    (sw : Bool) (s : SongSection)
    (h : SongSection.mk? name bars bpm bpb sub sw = Except.ok s) :
    SongSection.from_dict (SongSection.to_dict s) = Except.ok s := by
  have hpos := (section_construction_validates name bars bpm bpb sub sw).2 s h
  obtain ⟨n, b, p, bb, sd, sw'⟩ := s
  simp only at hpos
  unfold SongSection.from_dict SongSection.to_dict SongSection.mk?
  simp only
  split_ifs <;> first | rfl | omega

/-- C9 witness: round-trip at a concrete valid section. -/
theorem section_dict_roundtrip_witness :
    SongSection.from_dict
      (SongSection.to_dict ⟨"chorus", 4, 120, 4, 2, true⟩) =
      Except.ok ⟨"chorus", 4, 120, 4, 2, true⟩ :=
  section_dict_roundtrip "chorus" 4 120 4 2 true _ (by rfl)

/-! ## metronome.py: state -/

/-- The mutable state of a `Metronome` object.  Fields mirror the attributes
set in `Metronome.__init__` and `Metronome.start`; `tkinter` variables are
plain fields.  `start_time` and `next_tick_time` are only meaningful once
`start` has run (Python would raise `AttributeError` before; we default them
to 0).  `threads` counts the live playback threads spawned via
`threading.Thread(target=self.play).start()`. -/
structure MetronomeState where
  running : Bool
  start_time : ℚ
  next_tick_time : ℚ
  threads : Nat
  bpm : Int
  beats_per_bar : Int
  subdivisions : Int
  count_in_enabled : Bool
  count_in_bars : Int
  tempo_change_mode : String
  tempo_change_step : PyVal
  tempo_change_interval : PyVal
  timer_duration : ℚ
  swing_enabled : Bool
  current_section_index : Int
  current_section : Option SongSection
  sections : List SongSection
deriving Repr, DecidableEq

/-- `Metronome.__init__`: the default settings. -/
def Metronome.init : MetronomeState where
  running := false
  start_time := 0
  next_tick_time := 0
  threads := 0
  bpm := DEFAULT_BPM
  beats_per_bar := DEFAULT_BEATS_PER_BAR
  subdivisions := DEFAULT_SUBDIVISIONS
  count_in_enabled := true
  count_in_bars := DEFAULT_COUNT_IN_BARS
  tempo_change_mode := "None"
  tempo_change_step := PyVal.int DEFAULT_TEMPO_CHANGE_STEP
  tempo_change_interval := PyVal.int DEFAULT_TEMPO_CHANGE_INTERVAL
  timer_duration := DEFAULT_TIMER_DURATION
  swing_enabled := false
  current_section_index := 0
  current_section := none
  sections := []

/-! ## metronome.py: operations -/

/-- `Metronome.start(start_time=None)`.  `now` is the value `time.time()`
would return.  The Python expression `start_time or time.time()` treats the
float `0.0` as falsy, which the `some v` branch reproduces.  When the
metronome is already running nothing happens; otherwise the running flag is
set, both timestamps are seeded, and one playback thread is spawned. -/
def Metronome.start (now : ℚ) (start_time? : Option ℚ)
    (st : MetronomeState) : MetronomeState :=
  if st.running then st
  else
    let t : ℚ :=
      match start_time? with
      | none => now
      | some v => if v = 0 then now else v
    { st with
      running := true
      start_time := t
      next_tick_time := t
      threads := st.threads + 1 }

/-- The field writes shared by `Metronome.start_song_flow` (lines 87, 90-93)
and the section-advance branch of `Metronome.play` (lines 136-140): install
`sec` as the current section and copy its tempo/meter/swing into the live
settings. -/
def Metronome.apply_section (st : MetronomeState) (sec : SongSection) :
    MetronomeState :=
  { st with
    current_section := some sec
    bpm := sec.bpm
    beats_per_bar := sec.beats_per_bar
    subdivisions := sec.subdivisions
    swing_enabled := sec.swing_enabled }

/-- `Metronome.start_song_flow(sections)`.  An empty list returns early
(`if not sections: return`) without touching any state and without raising;
otherwise the section list is installed, the first section seeds the live
settings, and `start()` is called.  The `Except` wrapper records that the
method body raises no exception on any path. -/
def Metronome.start_song_flow (st : MetronomeState) (now : ℚ)
    (sections : List SongSection) : Except PyError MetronomeState :=
  match sections with
  | [] => Except.ok st
  | s0 :: _ =>
    let st1 := { st with sections := sections, current_section_index := 0 }
    let st2 := Metronome.apply_section st1 s0
    Except.ok (Metronome.start now none st2)

/-- The `try: step = int(...); interval = int(...) except ValueError:` block of
`Metronome._handle_tempo_change`: a `ValueError` from either parse makes both
fall back to the defaults (step=5, interval=4).  Values that do parse —
including zero and negative integers — are used as parsed. -/
def Metronome.tempo_change_params (st : MetronomeState) : Int × Int :=
  match pyInt st.tempo_change_step, pyInt st.tempo_change_interval with
  | some s, some i => (s, i)
  | _, _ => (DEFAULT_TEMPO_CHANGE_STEP, DEFAULT_TEMPO_CHANGE_INTERVAL)

/-- `Metronome._handle_tempo_change(bar_count)`: reads the mode, parses the
step/interval parameters (see `Metronome.tempo_change_params`), and mutates
bpm at matching bar boundaries.  The modulo `bar_count % interval` is
evaluated only in the "Speed Up" / "Slow Down" branches (Python's
short-circuit `and`), and raises `ZeroDivisionError` when `interval == 0`. -/
def Metronome.handle_tempo_change (st : MetronomeState) (bar_count : Int) :
    Except PyError MetronomeState :=
  if st.tempo_change_mode = "Speed Up" then
    if (Metronome.tempo_change_params st).2 = 0 then
      Except.error PyError.zeroDivisionError
    else if pymod bar_count (Metronome.tempo_change_params st).2 = 0 then
      Except.ok { st with
        bpm := min MAX_BPM (st.bpm + (Metronome.tempo_change_params st).1) }
    else Except.ok st
  else if st.tempo_change_mode = "Slow Down" then
    if (Metronome.tempo_change_params st).2 = 0 then
      Except.error PyError.zeroDivisionError
    else if pymod bar_count (Metronome.tempo_change_params st).2 = 0 then
      Except.ok { st with
        bpm := max MIN_BPM (st.bpm - (Metronome.tempo_change_params st).1) }
    else Except.ok st
  else Except.ok st

/-- `Metronome._calculate_delay(tick_in_beat)`: seconds until the next tick,
as the exact rational the float expression denotes. -/
def Metronome.calculate_delay (st : MetronomeState) (tick_in_beat : Int) : ℚ :=
  if st.swing_enabled ∧ st.subdivisions = 2 then
    (60 / (st.bpm : ℚ)) * (if tick_in_beat = 0 then 2/3 else 1/3)
  else 60 / ((st.bpm : ℚ) * (st.subdivisions : ℚ))

/-- The accent computation of `Metronome.play` (lines 144-146):
`current_beat = (tick_count - 1) // subdivisions`,
`tick_in_beat = (tick_count - 1) % subdivisions`,
`is_accented = tick_in_beat == 0 and current_beat % beats_per_bar == 0`. -/
def Metronome.tick_is_accented (subdivisions beats_per_bar tick_count : Int) :
    Bool :=
  decide (pymod (tick_count - 1) subdivisions = 0 ∧
    pymod (pyfloordiv (tick_count - 1) subdivisions) beats_per_bar = 0)

/-- One tick of the count-in phase of `Metronome.play` (line 110):
`self.next_tick_time += 60 / self.bpm.get()`.  (The sleep that follows reads
the clock but changes no state.) -/
def Metronome.count_in_tick (st : MetronomeState) : MetronomeState :=
  { st with next_tick_time := st.next_tick_time + 60 / (st.bpm : ℚ) }

/-- `n` consecutive count-in ticks. -/
def Metronome.count_in_run (st : MetronomeState) : Nat → MetronomeState
  | 0 => st
  | n + 1 => Metronome.count_in_run (Metronome.count_in_tick st) n

/-- The loop-local variables of `Metronome.play` together with the object
state. -/
structure LoopState where
  met : MetronomeState
  tick_count : Int
  bar_count : Int
deriving Repr, DecidableEq

/-- Outcome of one iteration of the steady-state `while` loop of
`Metronome.play`: the body ran to its end (`next`), the loop broke out
(`stop`: timer expiry or section-sequence exhaustion), or an uncaught
exception escaped (`err`), which in Python kills the playback thread. -/
inductive LoopIterResult where
  | next (ls : LoopState)
  | stop (ls : LoopState)
  | err (e : PyError)
deriving Repr, DecidableEq

/-- The section-advance check of `Metronome.play` (lines 129-141): when a
current section exists and its bar budget is exhausted, move to the next
section (installing its tempo/meter and resetting the bar counter) or
report exhaustion (`none`), which makes the loop clear `running` and
break. -/
def Metronome.advance_if_needed (ls : LoopState) : Option LoopState :=
  match ls.met.current_section with
  | none => some ls
  | some sec =>
    if sec.bars ≤ ls.bar_count then
      if (ls.met.sections.length : Int) ≤ ls.met.current_section_index + 1
      then none
      else
        some { ls with
          bar_count := 0
          met := Metronome.apply_section
            { ls.met with
              current_section_index := ls.met.current_section_index + 1 }
            (ls.met.sections.getD
              (ls.met.current_section_index + 1).toNat default) }
    else some ls

/-- One iteration of the steady-state loop of `Metronome.play`
(lines 122-175), given the wall-clock reading `now` at the top of the
iteration.  Sound dispatch, the sample-name snapshot, and the `on_beat`
callback touch no embedded state and are omitted; everything that mutates
the metronome or the loop variables is kept in source order: timer check,
section advance, tick counting, bar-boundary tempo change, delay
computation, and the absolute-schedule advance
`self.next_tick_time += delay`.  The tick position passed to the delay
computation is `(tick_count - 1) % subdivisions` for the just-incremented
`tick_count`, i.e. `pymod ls1.tick_count subdivisions` for the
pre-increment value.  A zero `subdivisions` or `beats_per_bar` raises
`ZeroDivisionError` at the tick's division, killing the thread (`err`).
The final sleep reads the clock but mutates nothing.  The body is split
into `Metronome.loop_iter_tempo` (tick tail at a bar boundary) and
`Metronome.loop_iter_core` (everything after the timer check), assembled by
`Metronome.loop_iter`.

The tail of a bar-boundary tick (lines 167-172): the outcome of
`_handle_tempo_change` either kills the thread (uncaught exception) or the
tick finishes by computing the delay from the updated state and advancing
the absolute schedule. -/
def Metronome.loop_iter_tempo (ls1 : LoopState) :
    Except PyError MetronomeState → LoopIterResult
  | Except.error e => LoopIterResult.err e
  | Except.ok st2 =>
    LoopIterResult.next
      { met := { st2 with
          next_tick_time := st2.next_tick_time +
            Metronome.calculate_delay st2
              (pymod ls1.tick_count ls1.met.subdivisions) }
        tick_count := ls1.tick_count + 1
        bar_count := ls1.bar_count + 1 }

/-- The loop body after the timer check, applied to the result of the
section-advance check (lines 129-175): exhaustion stops the loop; otherwise
the tick counts, accents, applies the bar-boundary tempo change, computes
the delay, and advances the schedule. -/
def Metronome.loop_iter_core (ls : LoopState) :
    Option LoopState → LoopIterResult
  | none =>
    LoopIterResult.stop { ls with met :=
      { ls.met with
        running := false
        current_section_index := ls.met.current_section_index + 1 } }
  | some ls1 =>
    if ls1.met.subdivisions = 0 then
      LoopIterResult.err PyError.zeroDivisionError
    else if ls1.met.beats_per_bar * ls1.met.subdivisions = 0 then
      LoopIterResult.err PyError.zeroDivisionError
    else if pymod (ls1.tick_count + 1)
        (ls1.met.beats_per_bar * ls1.met.subdivisions) = 0 then
      Metronome.loop_iter_tempo ls1
        (Metronome.handle_tempo_change ls1.met (ls1.bar_count + 1))
    else
      LoopIterResult.next
        { met := { ls1.met with
            next_tick_time := ls1.met.next_tick_time +
              Metronome.calculate_delay ls1.met
                (pymod ls1.tick_count ls1.met.subdivisions) }
          tick_count := ls1.tick_count + 1
          bar_count := ls1.bar_count }

def Metronome.loop_iter (ls : LoopState) (now : ℚ) : LoopIterResult :=
  if 0 < ls.met.timer_duration ∧
      ls.met.timer_duration ≤ now - ls.met.start_time then
    LoopIterResult.stop { ls with met := { ls.met with running := false } }
  else
    Metronome.loop_iter_core ls (Metronome.advance_if_needed ls)

/-- Run the steady-state loop for one wall-clock reading per iteration;
`none` when the loop stopped or an exception escaped before the readings
were exhausted. -/
def Metronome.run_ticks (ls : LoopState) : List ℚ → Option LoopState
  | [] => some ls
  | now :: rest =>
    match Metronome.loop_iter ls now with
    | LoopIterResult.next ls1 => Metronome.run_ticks ls1 rest
    | _ => none

/-! ## Theorems about the run controller and song flow -/

/-- C10: calling `start()` while the metronome is already running is a
no-op: the running flag stays set, `start_time` and `next_tick_time` are not
reset, and no second playback thread is created. -/
theorem start_noop_when_running (st : MetronomeState) (now : ℚ)
    (t? : Option ℚ) (h : st.running = true) :
    Metronome.start now t? st = st ∧
    (Metronome.start now t? st).running = true ∧
    (Metronome.start now t? st).start_time = st.start_time ∧
    (Metronome.start now t? st).next_tick_time = st.next_tick_time ∧
    (Metronome.start now t? st).threads = st.threads := by
  unfold Metronome.start
  simp [h]

/-- C10 witness: `start` on a concrete running state changes nothing. -/
theorem start_noop_when_running_witness :
    Metronome.start 5 none { Metronome.init with running := true } =
      { Metronome.init with running := true } :=
  (start_noop_when_running { Metronome.init with running := true } 5 none
    rfl).1

/-- C6 counterexample: starting a song flow with an empty section list does
NOT fail with an error — `start_song_flow` returns normally (Python's
`if not sections: return`), leaving the state untouched. -/
theorem start_song_flow_empty_no_error :
    Metronome.start_song_flow Metronome.init 0 [] =
      Except.ok Metronome.init ∧
    ¬ ∃ e, Metronome.start_song_flow Metronome.init 0 [] =
      Except.error e := by
  refine ⟨rfl, ?_⟩
  rintro ⟨e, he⟩
  simp [Metronome.start_song_flow] at he

/-- C6 (amended): starting a section sequence with an empty section list is
rejected as a silent no-op before any state mutation: no error is raised and
the sequencer's section list, current index, and the live tempo/meter values
are all unchanged (the whole state is returned as-is). -/
theorem start_song_flow_empty_noop (st : MetronomeState) (now : ℚ) :
    Metronome.start_song_flow st now [] = Except.ok st := rfl

/-- C5 counterexample: a zero interval and a negative step are *not*
replaced by the documented defaults.  With `tempo_change_interval = 0` and
mode "Speed Up" the bar-boundary tempo change raises `ZeroDivisionError`
(the tick does not complete), and with `tempo_change_step = -5` the negative
step is applied as-is (bpm 120 becomes 115, not the 125 the default step
would give). -/
theorem tempo_change_invalid_values_not_defaulted :
    Metronome.handle_tempo_change
      { Metronome.init with
        tempo_change_mode := "Speed Up"
        tempo_change_interval := PyVal.int 0 } 4 =
      Except.error PyError.zeroDivisionError ∧
    (Metronome.handle_tempo_change
      { Metronome.init with
        tempo_change_mode := "Speed Up"
        tempo_change_step := PyVal.int (-5) } 4).map
      (fun st => st.bpm) = Except.ok 115 :=
  ⟨rfl, rfl⟩

/-- C5 (amended): the fallback to the documented defaults (step=5,
interval=4) happens exactly when parsing the step or the interval as an
integer raises `ValueError` (non-numeric strings); the tempo change then
behaves as with the default values and completes the tick without raising.
Integer values — including zero and negative ones — are used as parsed. -/
theorem tempo_change_parse_fallback (st : MetronomeState) (bar_count : Int)
    (h : pyInt st.tempo_change_step = none ∨
      pyInt st.tempo_change_interval = none) :
    Metronome.tempo_change_params st =
      (DEFAULT_TEMPO_CHANGE_STEP, DEFAULT_TEMPO_CHANGE_INTERVAL) ∧
    (Metronome.handle_tempo_change st bar_count).map (fun s => s.bpm) =
      (Metronome.handle_tempo_change
        { st with
          tempo_change_step := PyVal.int DEFAULT_TEMPO_CHANGE_STEP
          tempo_change_interval := PyVal.int DEFAULT_TEMPO_CHANGE_INTERVAL }
        bar_count).map (fun s => s.bpm) ∧
    ∃ st', Metronome.handle_tempo_change st bar_count = Except.ok st' := by
  have hsi : Metronome.tempo_change_params st =
      (DEFAULT_TEMPO_CHANGE_STEP, DEFAULT_TEMPO_CHANGE_INTERVAL) := by
    unfold Metronome.tempo_change_params
    rcases h with h | h
    · rw [h]
    · rw [h]
      cases pyInt st.tempo_change_step <;> rfl
  have hdef : Metronome.tempo_change_params
      { st with
        tempo_change_step := PyVal.int DEFAULT_TEMPO_CHANGE_STEP
        tempo_change_interval := PyVal.int DEFAULT_TEMPO_CHANGE_INTERVAL } =
      (DEFAULT_TEMPO_CHANGE_STEP, DEFAULT_TEMPO_CHANGE_INTERVAL) := rfl
  refine ⟨hsi, ?_, ?_⟩
  · unfold Metronome.handle_tempo_change
    rw [hsi, hdef]
    simp only [DEFAULT_TEMPO_CHANGE_STEP, DEFAULT_TEMPO_CHANGE_INTERVAL]
    norm_num
    split_ifs <;> rfl
  · unfold Metronome.handle_tempo_change
    rw [hsi]
    simp only [DEFAULT_TEMPO_CHANGE_STEP, DEFAULT_TEMPO_CHANGE_INTERVAL]
    norm_num
    split_ifs <;> exact ⟨_, rfl⟩

/-- C5 witness: a non-numeric step string falls back and the tick
completes. -/
theorem tempo_change_parse_fallback_witness :
    ∃ st', Metronome.handle_tempo_change
      { Metronome.init with tempo_change_step := PyVal.str "abc" } 3 =
      Except.ok st' :=
  (tempo_change_parse_fallback
    { Metronome.init with tempo_change_step := PyVal.str "abc" } 3
    (Or.inl rfl)).2.2

/-! ## Theorems about the beat clock -/

/-- C3: for every bpm within bounds, subdivisions ≥ 1 and tick position, the
per-tick delay is `(60/bpm)*2/3` (tick 0) or `(60/bpm)*1/3` (otherwise) when
swing is enabled and subdivisions = 2; in all other cases it is exactly
`60/(bpm*subdivisions)`, and for subdivisions ≠ 2 the swing flag has no
effect at all. -/
theorem calculate_delay_spec (st : MetronomeState) (t : Int)
    (hlo : MIN_BPM ≤ st.bpm) (hhi : st.bpm ≤ MAX_BPM)
    (hsub : 1 ≤ st.subdivisions) :
    (st.swing_enabled = true → st.subdivisions = 2 →
      Metronome.calculate_delay st t =
        (60 / (st.bpm : ℚ)) * (if t = 0 then 2/3 else 1/3)) ∧
    (st.subdivisions ≠ 2 →
      Metronome.calculate_delay st t =
        Metronome.calculate_delay { st with swing_enabled := false } t) ∧
    (st.swing_enabled = false ∨ st.subdivisions ≠ 2 →
      Metronome.calculate_delay st t =
        60 / ((st.bpm : ℚ) * (st.subdivisions : ℚ))) := by
  unfold Metronome.calculate_delay
  refine ⟨?_, ?_, ?_⟩
  · intro hs h2
    simp [hs, h2]
  · intro h2
    simp [h2]
  · rintro (hs | h2)
    · simp [hs]
    · simp [h2]

/-- C3 witness: swing with subdivisions 2 at tick 0 gives the long 2/3
delay of the beat (120 bpm ⇒ 1/3 s). -/
theorem calculate_delay_spec_witness :
    Metronome.calculate_delay
      { Metronome.init with swing_enabled := true, subdivisions := 2 } 0 =
      1/3 := by
  have h := (calculate_delay_spec
    { Metronome.init with swing_enabled := true, subdivisions := 2 } 0
    (by decide) (by decide) (by decide)).1 rfl rfl
  rw [h]
  simp [Metronome.init, DEFAULT_BPM]
  norm_num

/-- C4: a tick is accented iff it is the first subdivision of a beat whose
index is a multiple of beats_per_bar; concretely for subdivisions=2 and
beats_per_bar=4, accents fall exactly on tick_count ≡ 1 (mod 8). -/
theorem accent_characterization (subs bpb tc : Int)
    (hs : 0 < subs) (hb : 0 < bpb) (ht : 1 ≤ tc) :
    (Metronome.tick_is_accented subs bpb tc = true ↔
      (tc - 1) % subs = 0 ∧ ((tc - 1) / subs) % bpb = 0) ∧
    (Metronome.tick_is_accented 2 4 tc = true ↔ tc % 8 = 1) := by
  have e1 : pymod (tc - 1) subs = (tc - 1) % subs :=
    pymod_eq_emod _ _ (by omega)
  have e2 : pyfloordiv (tc - 1) subs = (tc - 1) / subs :=
    pyfloordiv_eq_ediv _ _ (by omega)
  have e3 : pymod (pyfloordiv (tc - 1) subs) bpb = ((tc - 1) / subs) % bpb := by
    rw [e2]
    exact pymod_eq_emod _ _ (by omega)
  have e4 : pymod (tc - 1) 2 = (tc - 1) % 2 := pymod_eq_emod _ _ (by omega)
  have e5 : pyfloordiv (tc - 1) 2 = (tc - 1) / 2 :=
    pyfloordiv_eq_ediv _ _ (by omega)
  have e6 : pymod (pyfloordiv (tc - 1) 2) 4 = ((tc - 1) / 2) % 4 := by
    rw [e5]
    exact pymod_eq_emod _ _ (by omega)
  constructor
  · unfold Metronome.tick_is_accented
    rw [e1, e3]
    simp only [decide_eq_true_eq]
  · unfold Metronome.tick_is_accented
    rw [e4, e6]
    simp only [decide_eq_true_eq]
    omega

/-- C4 witness: with subdivisions 2 and beats_per_bar 4, tick 9 is accented
and tick 2 is not. -/
theorem accent_characterization_witness :
    Metronome.tick_is_accented 2 4 9 = true ∧
    Metronome.tick_is_accented 2 4 2 = false := by
  refine ⟨?_, by decide⟩
  exact (accent_characterization 2 4 9 (by decide) (by decide)
    (by decide)).2.mpr (by decide)

/-- C7: for positive parsed parameters, a tempo change mutates bpm exactly
when `bar_count % interval = 0`: Speed Up adds the step clamped to MAX_BPM,
Slow Down subtracts it clamped to MIN_BPM, any other mode leaves the state
untouched; with step=5, interval=4 and bar_count in 1..8, bpm moves only at
bar_count 4 and 8. -/
theorem tempo_change_bar_boundary (st : MetronomeState)
    (bar_count step interval : Int)
    (hstep : pyInt st.tempo_change_step = some step)
    (hintv : pyInt st.tempo_change_interval = some interval)
    (hbc : 1 ≤ bar_count) (hipos : 0 < interval) :
    (st.tempo_change_mode = "Speed Up" →
      Metronome.handle_tempo_change st bar_count =
        Except.ok (if bar_count % interval = 0
          then { st with bpm := min MAX_BPM (st.bpm + step) } else st)) ∧
    (st.tempo_change_mode = "Slow Down" →
      Metronome.handle_tempo_change st bar_count =
        Except.ok (if bar_count % interval = 0
          then { st with bpm := max MIN_BPM (st.bpm - step) } else st)) ∧
    (st.tempo_change_mode ≠ "Speed Up" → st.tempo_change_mode ≠ "Slow Down" →
      Metronome.handle_tempo_change st bar_count = Except.ok st) ∧
    (st.tempo_change_mode = "Speed Up" → step = 5 → interval = 4 →
      bar_count ≤ 8 →
      Metronome.handle_tempo_change st bar_count =
        Except.ok (if bar_count = 4 ∨ bar_count = 8
          then { st with bpm := min MAX_BPM (st.bpm + 5) } else st)) := by
  have hparams : Metronome.tempo_change_params st = (step, interval) := by
    unfold Metronome.tempo_change_params
    rw [hstep, hintv]
  have hp1 : (Metronome.tempo_change_params st).1 = step := by rw [hparams]
  have hp2 : (Metronome.tempo_change_params st).2 = interval := by
    rw [hparams]
  have hne : interval ≠ 0 := by omega
  have hmod : pymod bar_count interval = bar_count % interval :=
    pymod_eq_emod _ _ (by omega)
  have hspeed : st.tempo_change_mode = "Speed Up" →
      Metronome.handle_tempo_change st bar_count =
        Except.ok (if bar_count % interval = 0
          then { st with bpm := min MAX_BPM (st.bpm + step) } else st) := by
    intro hmode
    unfold Metronome.handle_tempo_change
    rw [hmode, hp1, hp2, hmod]
    rw [if_pos rfl, if_neg hne]
    rw [apply_ite Except.ok]
  refine ⟨hspeed, ?_, ?_, ?_⟩
  · intro hmode
    unfold Metronome.handle_tempo_change
    rw [hmode, hp1, hp2, hmod]
    rw [if_neg (show ¬ ("Slow Down" : String) = "Speed Up" by decide),
      if_pos rfl, if_neg hne]
    rw [apply_ite Except.ok]
  · intro h1 h2
    unfold Metronome.handle_tempo_change
    rw [if_neg h1, if_neg h2]
  · intro hmode h5 h4 hle
    subst h5
    subst h4
    rw [hspeed hmode]
    have hiff : (bar_count % (4:Int) = 0) ↔
        (bar_count = 4 ∨ bar_count = 8) := by
      omega
    simp only [hiff]

/-- C7 witness: Speed Up with the default step 5 and interval 4 raises a
120 bpm metronome to 125 at bar 4, and leaves it at 120 at bar 3. -/
theorem tempo_change_bar_boundary_witness :
    Metronome.handle_tempo_change
      { Metronome.init with tempo_change_mode := "Speed Up" } 4 =
      Except.ok { Metronome.init with
        tempo_change_mode := "Speed Up", bpm := 125 } ∧
    Metronome.handle_tempo_change
      { Metronome.init with tempo_change_mode := "Speed Up" } 3 =
      Except.ok { Metronome.init with tempo_change_mode := "Speed Up" } := by
  constructor
  · have h := (tempo_change_bar_boundary
      { Metronome.init with tempo_change_mode := "Speed Up" } 4 5 4 rfl rfl
      (by decide) (by decide)).1 rfl
    rw [h]
    rfl
  · have h := (tempo_change_bar_boundary
      { Metronome.init with tempo_change_mode := "Speed Up" } 3 5 4 rfl rfl
      (by decide) (by decide)).1 rfl
    rw [h]
    rfl

/-- C1 counterexample: a perfectly valid SongSection may carry bpm = 300;
seeding the tempo from it at sequence start writes 300 into the live bpm,
which exceeds MAX_BPM = 250 — seeding does not clamp. -/
theorem tempo_seed_exceeds_max_bpm :
    SongSection.mk? "bridge" 1 300 4 1 false =
      Except.ok ⟨"bridge", 1, 300, 4, 1, false⟩ ∧
    (Metronome.start_song_flow Metronome.init 0
      [⟨"bridge", 1, 300, 4, 1, false⟩]).map (fun s => s.bpm) =
      Except.ok 300 ∧
    ¬ (300 : Int) ≤ MAX_BPM :=
  ⟨rfl, rfl, by decide⟩

/-- C1 (amended): tempo-change application at a bar boundary keeps bpm within
[MIN_BPM, MAX_BPM] whenever the prior bpm is within bounds and the parsed
step and interval are positive; seeding the tempo from a section — at
sequence start or at a section advance (both go through the same field
writes, `Metronome.apply_section`) — sets bpm to the section's bpm, which is
guaranteed positive but is not clamped to the bounds. -/
theorem bpm_bounds_after_mutation (st : MetronomeState)
    (bar_count step interval : Int)
    (hstep : pyInt st.tempo_change_step = some step)
    (hintv : pyInt st.tempo_change_interval = some interval)
    (hspos : 0 < step) (hipos : 0 < interval)
    (hlo : MIN_BPM ≤ st.bpm) (hhi : st.bpm ≤ MAX_BPM)
    (sec : SongSection) (hsec : 0 < sec.bpm) :
    (∃ st', Metronome.handle_tempo_change st bar_count = Except.ok st' ∧
      MIN_BPM ≤ st'.bpm ∧ st'.bpm ≤ MAX_BPM) ∧
    ((Metronome.apply_section st sec).bpm = sec.bpm ∧
      0 < (Metronome.apply_section st sec).bpm) ∧
    (∀ rest st', Metronome.start_song_flow st 0 (sec :: rest) =
      Except.ok st' → st'.bpm = sec.bpm ∧ 0 < st'.bpm) := by
  have hparams : Metronome.tempo_change_params st = (step, interval) := by
    unfold Metronome.tempo_change_params
    rw [hstep, hintv]
  have hp1 : (Metronome.tempo_change_params st).1 = step := by rw [hparams]
  have hp2 : (Metronome.tempo_change_params st).2 = interval := by
    rw [hparams]
  have hne : interval ≠ 0 := by omega
  refine ⟨?_, ⟨rfl, hsec⟩, ?_⟩
  · unfold Metronome.handle_tempo_change
    rw [hp1, hp2]
    split_ifs with h1 h2 h3 h4
    · refine ⟨_, rfl, ?_, ?_⟩
      · show MIN_BPM ≤ min MAX_BPM (st.bpm + step)
        simp only [MIN_BPM, MAX_BPM] at *
        omega
      · show min MAX_BPM (st.bpm + step) ≤ MAX_BPM
        simp only [MIN_BPM, MAX_BPM] at *
        omega
    · exact ⟨st, rfl, hlo, hhi⟩
    · refine ⟨_, rfl, ?_, ?_⟩
      · show MIN_BPM ≤ max MIN_BPM (st.bpm - step)
        simp only [MIN_BPM, MAX_BPM] at *
        omega
      · show max MIN_BPM (st.bpm - step) ≤ MAX_BPM
        simp only [MIN_BPM, MAX_BPM] at *
        omega
    · exact ⟨st, rfl, hlo, hhi⟩
    · exact ⟨st, rfl, hlo, hhi⟩
  · intro rest st' hflow
    unfold Metronome.start_song_flow at hflow
    simp only [Except.ok.injEq] at hflow
    subst hflow
    unfold Metronome.start Metronome.apply_section
    split_ifs <;> exact ⟨rfl, hsec⟩

/-- C1 witness: a bounded tempo change from the default state, and the seed
behavior for a concrete section. -/
theorem bpm_bounds_after_mutation_witness :
    ∃ st', Metronome.handle_tempo_change
      { Metronome.init with tempo_change_mode := "Speed Up" } 4 =
      Except.ok st' ∧ MIN_BPM ≤ st'.bpm ∧ st'.bpm ≤ MAX_BPM :=
  (bpm_bounds_after_mutation
    { Metronome.init with tempo_change_mode := "Speed Up" } 4 5 4 rfl rfl
    (by decide) (by decide) (by decide) (by decide)
    ⟨"A", 1, 100, 4, 1, false⟩ (by decide)).1

/-! ## Helper lemmas for the scheduling loop -/

/-- A successful tempo change never touches the schedule or the meter: only
bpm can differ. -/
theorem handle_tempo_change_frame (st : MetronomeState) (bc : Int)
    (st' : MetronomeState)
    (h : Metronome.handle_tempo_change st bc = Except.ok st') :
    st'.next_tick_time = st.next_tick_time ∧
    st'.subdivisions = st.subdivisions ∧
    st'.swing_enabled = st.swing_enabled := by
  unfold Metronome.handle_tempo_change at h
  split_ifs at h <;> cases h <;> exact ⟨rfl, rfl, rfl⟩

/-- With tempo-change mode "None" the bar-boundary tempo change is the
identity. -/
theorem handle_tempo_change_none (st : MetronomeState) (bc : Int)
    (h : st.tempo_change_mode = "None") :
    Metronome.handle_tempo_change st bc = Except.ok st := by
  unfold Metronome.handle_tempo_change
  rw [h]
  rw [if_neg (show ¬("None" : String) = "Speed Up" by decide),
    if_neg (show ¬("None" : String) = "Slow Down" by decide)]

/-- Without swing the delay is the uniform `60/(bpm*subdivisions)`. -/
theorem calculate_delay_no_swing (st : MetronomeState) (t : Int)
    (h : st.swing_enabled = false) :
    Metronome.calculate_delay st t =
      60 / ((st.bpm : ℚ) * (st.subdivisions : ℚ)) := by
  unfold Metronome.calculate_delay
  rw [h]
  simp

/-- A section advance never touches the schedule. -/
theorem advance_preserves_next_tick (ls ls1 : LoopState)
    (h : Metronome.advance_if_needed ls = some ls1) :
    ls1.met.next_tick_time = ls.met.next_tick_time := by
  unfold Metronome.advance_if_needed at h
  split at h
  · cases h
    rfl
  · split_ifs at h <;> cases h <;> rfl

/-- Every iteration of the loop that runs to the end of its body advances
`next_tick_time` by exactly the delay computed for that tick — never by
reference to the wall clock. -/
theorem loop_iter_next_advances (ls : LoopState) (now : ℚ) (ls' : LoopState)
    (h : Metronome.loop_iter ls now = LoopIterResult.next ls') :
    ls'.met.next_tick_time = ls.met.next_tick_time +
      Metronome.calculate_delay ls'.met
        (pymod (ls'.tick_count - 1) ls'.met.subdivisions) := by
  unfold Metronome.loop_iter at h
  split at h
  · exact LoopIterResult.noConfusion h
  · cases hadv : Metronome.advance_if_needed ls with
    | none =>
      rw [hadv] at h
      simp only [Metronome.loop_iter_core] at h
      exact LoopIterResult.noConfusion h
    | some ls1 =>
      rw [hadv] at h
      simp only [Metronome.loop_iter_core] at h
      have hntt : ls1.met.next_tick_time = ls.met.next_tick_time :=
        advance_preserves_next_tick ls ls1 hadv
      split at h
      · exact LoopIterResult.noConfusion h
      · split at h
        · exact LoopIterResult.noConfusion h
        · split at h
          · cases hh : Metronome.handle_tempo_change ls1.met
                (ls1.bar_count + 1) with
            | error e =>
              rw [hh] at h
              simp only [Metronome.loop_iter_tempo] at h
              exact LoopIterResult.noConfusion h
            | ok st2 =>
              rw [hh] at h
              simp only [Metronome.loop_iter_tempo] at h
              injection h with h
              subst h
              obtain ⟨f1, f2, f3⟩ := handle_tempo_change_frame _ _ _ hh
              show st2.next_tick_time + Metronome.calculate_delay st2
                  (pymod ls1.tick_count ls1.met.subdivisions) =
                ls.met.next_tick_time + Metronome.calculate_delay st2
                  (pymod (ls1.tick_count + 1 - 1) st2.subdivisions)
              rw [f1, hntt, f2, Int.add_sub_cancel]
          · injection h with h
            subst h
            show ls1.met.next_tick_time + Metronome.calculate_delay ls1.met
                (pymod ls1.tick_count ls1.met.subdivisions) =
              ls.met.next_tick_time + Metronome.calculate_delay ls1.met
                (pymod (ls1.tick_count + 1 - 1) ls1.met.subdivisions)
            rw [hntt, Int.add_sub_cancel]

/-- In manual mode (no section, tempo-change mode "None", no swing, no
timer) one loop iteration is fully determined and independent of the
wall-clock reading: advance the schedule by the uniform delay, bump the
tick counter, and bump the bar counter at bar boundaries. -/
theorem loop_iter_manual (ls : LoopState) (now : ℚ)
    (hmode : ls.met.tempo_change_mode = "None")
    (hsec : ls.met.current_section = none)
    (hswing : ls.met.swing_enabled = false)
    (htimer : ls.met.timer_duration = 0)
    (hsub : ls.met.subdivisions ≠ 0)
    (hbpb : ls.met.beats_per_bar ≠ 0) :
    Metronome.loop_iter ls now = LoopIterResult.next
      { met := { ls.met with
          next_tick_time := ls.met.next_tick_time +
            60 / ((ls.met.bpm : ℚ) * (ls.met.subdivisions : ℚ)) }
        tick_count := ls.tick_count + 1
        bar_count := if pymod (ls.tick_count + 1)
            (ls.met.beats_per_bar * ls.met.subdivisions) = 0
          then ls.bar_count + 1 else ls.bar_count } := by
  have hadv : Metronome.advance_if_needed ls = some ls := by
    unfold Metronome.advance_if_needed
    rw [hsec]
  have hmul : ls.met.beats_per_bar * ls.met.subdivisions ≠ 0 :=
    mul_ne_zero hbpb hsub
  unfold Metronome.loop_iter
  rw [if_neg (by rw [htimer]; rintro ⟨hc, -⟩; exact absurd hc (by norm_num))]
  rw [hadv]
  simp only [Metronome.loop_iter_core]
  rw [if_neg hsub, if_neg hmul]
  by_cases hbar : pymod (ls.tick_count + 1)
      (ls.met.beats_per_bar * ls.met.subdivisions) = 0
  · rw [if_pos hbar, if_pos hbar,
      handle_tempo_change_none ls.met (ls.bar_count + 1) hmode]
    simp only [Metronome.loop_iter_tempo]
    rw [calculate_delay_no_swing ls.met
      (pymod ls.tick_count ls.met.subdivisions) hswing]
  · rw [if_neg hbar, if_neg hbar,
      calculate_delay_no_swing ls.met
        (pymod ls.tick_count ls.met.subdivisions) hswing]

/-- Running the manual-mode loop never stops early and advances the
schedule by exactly one uniform delay per wall-clock reading consumed. -/
theorem run_ticks_manual (nows : List ℚ) : ∀ ls : LoopState,
    ls.met.tempo_change_mode = "None" → ls.met.current_section = none →
    ls.met.swing_enabled = false → ls.met.timer_duration = 0 →
    ls.met.subdivisions ≠ 0 → ls.met.beats_per_bar ≠ 0 →
    ∃ ls', Metronome.run_ticks ls nows = some ls' ∧
      ls'.met.next_tick_time = ls.met.next_tick_time +
        (nows.length : ℚ) *
          (60 / ((ls.met.bpm : ℚ) * (ls.met.subdivisions : ℚ))) := by
  induction nows with
  | nil =>
    intro ls _ _ _ _ _ _
    exact ⟨ls, rfl, by simp⟩
  | cons a rest ih =>
    intro ls h1 h2 h3 h4 h5 h6
    simp only [Metronome.run_ticks]
    rw [loop_iter_manual ls a h1 h2 h3 h4 h5 h6]
    obtain ⟨ls', hrun, hntt⟩ := ih
      { met := { ls.met with
          next_tick_time := ls.met.next_tick_time +
            60 / ((ls.met.bpm : ℚ) * (ls.met.subdivisions : ℚ)) }
        tick_count := ls.tick_count + 1
        bar_count := if pymod (ls.tick_count + 1)
            (ls.met.beats_per_bar * ls.met.subdivisions) = 0
          then ls.bar_count + 1 else ls.bar_count }
      h1 h2 h3 h4 h5 h6
    refine ⟨ls', hrun, ?_⟩
    rw [hntt]
    simp only [List.length_cons]
    push_cast
    ring

/-- With no timer set, the manual-mode loop trace depends only on the number
of wall-clock readings, not their values: per-tick jitter cannot leak into
the schedule. -/
theorem run_ticks_manual_indep (nows : List ℚ) :
    ∀ (nows' : List ℚ) (ls : LoopState), nows'.length = nows.length →
    ls.met.tempo_change_mode = "None" → ls.met.current_section = none →
    ls.met.swing_enabled = false → ls.met.timer_duration = 0 →
    ls.met.subdivisions ≠ 0 → ls.met.beats_per_bar ≠ 0 →
    Metronome.run_ticks ls nows' = Metronome.run_ticks ls nows := by
  induction nows with
  | nil =>
    intro nows' ls hlen _ _ _ _ _ _
    rw [List.length_eq_zero.mp hlen]
  | cons a rest ih =>
    intro nows' ls hlen h1 h2 h3 h4 h5 h6
    cases nows' with
    | nil => simp at hlen
    | cons b rest' =>
      simp only [Metronome.run_ticks]
      rw [loop_iter_manual ls a h1 h2 h3 h4 h5 h6,
        loop_iter_manual ls b h1 h2 h3 h4 h5 h6]
      exact ih rest' _ (by simpa using hlen) h1 h2 h3 h4 h5 h6

/-- After `n` count-in ticks the schedule has advanced by exactly
`n * (60/bpm)`. -/
theorem count_in_run_next_tick (n : ℕ) : ∀ st : MetronomeState,
    (Metronome.count_in_run st n).next_tick_time =
      st.next_tick_time + (n : ℚ) * (60 / (st.bpm : ℚ)) := by
  induction n with
  | zero =>
    intro st
    simp [Metronome.count_in_run]
  | succ k ih =>
    intro st
    simp only [Metronome.count_in_run]
    rw [ih]
    show st.next_tick_time + 60 / (st.bpm : ℚ) +
        (k : ℚ) * (60 / (st.bpm : ℚ)) = _
    push_cast
    ring

/-- C2: the absolute schedule is advanced only by adding each tick's
computed delay to the previous `next_tick_time`, never recomputed from the
wall clock, so per-tick jitter cannot accumulate: (i) every completed
iteration adds exactly its computed delay; (ii) with no timer set, the
manual-mode trace is identical for any two wall-clock reading sequences of
the same length; (iii) after k uniform ticks `next_tick_time` equals
`start_time + k * nominal_delay`; (iv) the same holds for the count-in
phase with nominal delay `60/bpm`. -/
theorem schedule_drift_free (st : MetronomeState) (tick0 bar0 : Int)
    (nows nows' : List ℚ)
    (hmode : st.tempo_change_mode = "None")
    (hsec : st.current_section = none)
    (hswing : st.swing_enabled = false) (htimer : st.timer_duration = 0)
    (hsub : st.subdivisions ≠ 0) (hbpb : st.beats_per_bar ≠ 0)
    (hinit : st.next_tick_time = st.start_time)
    (hlen : nows'.length = nows.length) :
    (∀ ls now ls1, Metronome.loop_iter ls now = LoopIterResult.next ls1 →
      ls1.met.next_tick_time = ls.met.next_tick_time +
        Metronome.calculate_delay ls1.met
          (pymod (ls1.tick_count - 1) ls1.met.subdivisions)) ∧
    Metronome.run_ticks ⟨st, tick0, bar0⟩ nows' =
      Metronome.run_ticks ⟨st, tick0, bar0⟩ nows ∧
    (∃ ls', Metronome.run_ticks ⟨st, tick0, bar0⟩ nows = some ls' ∧
      ls'.met.next_tick_time = st.start_time +
        (nows.length : ℚ) *
          (60 / ((st.bpm : ℚ) * (st.subdivisions : ℚ)))) ∧
    (∀ n : ℕ, (Metronome.count_in_run st n).next_tick_time =
      st.start_time + (n : ℚ) * (60 / (st.bpm : ℚ))) := by
  refine ⟨fun ls now ls1 hstep => loop_iter_next_advances ls now ls1 hstep,
    run_ticks_manual_indep nows nows' ⟨st, tick0, bar0⟩ hlen hmode hsec
      hswing htimer hsub hbpb, ?_, ?_⟩
  · obtain ⟨ls', hrun, hntt⟩ := run_ticks_manual nows ⟨st, tick0, bar0⟩
      hmode hsec hswing htimer hsub hbpb
    refine ⟨ls', hrun, ?_⟩
    rw [hntt]
    show st.next_tick_time + _ = st.start_time + _
    rw [hinit]
  · intro n
    rw [count_in_run_next_tick n st, hinit]

/-- C2 witness: two manual-mode ticks at 120 bpm with arbitrary unequal
wall-clock readings land the schedule exactly at start_time + 2 · (1/2). -/
theorem schedule_drift_free_witness :
    ∃ ls', Metronome.run_ticks ⟨Metronome.init, 0, 0⟩ [100, 200] =
      some ls' ∧
      ls'.met.next_tick_time = Metronome.init.start_time +
        (([100, 200] : List ℚ).length : ℚ) *
          (60 / ((Metronome.init.bpm : ℚ) *
            (Metronome.init.subdivisions : ℚ))) :=
  (schedule_drift_free Metronome.init 0 0 [100, 200] [0, 5] rfl rfl rfl rfl
    (by decide) (by decide) rfl rfl).2.2.1

end Metro
